import Mathlib

/-!
# Verification of `langchain-critique` (src/langchain_critique/tools.py)

Shallow embedding of the three adapter classes — `CritiqueSearchTool`,
`CritiqueAPIDesignTool` and `CritiqueDynamicAPITool` — and of the input
validator `CritiqueSearchInput.validate_image`.  HTTP traffic is modelled by
an oracle `Http : HttpRequest → HttpResponse`; every operation returns its
result together with the list of requests it actually issued, so "no request
is sent" is the statement that the list is empty.

Python peculiarities kept faithfully:
  * `x or y` / `if not x` use string truthiness (`None` and `""` are falsy);
  * all HTTP status checks in the source are `!= 200` (not "non-2xx");
  * `CritiqueDynamicAPITool.__init__` performs *no* missing-key check;
  * `_image_to_base64` always emits the `data:image/jpeg;base64,` media type.
-/

namespace Critique

/-- Characterwise `startswith`, computed structurally on the char list. -/
def strStartsWith (s p : String) : Bool := p.data.isPrefixOf s.data

/-- Characterwise `endswith`, computed structurally on the char list. -/
def strEndsWith (s p : String) : Bool := p.data.isSuffixOf s.data

/-- Python `str.lower` (ASCII case folding suffices for the URLs here). -/
def lowerStr (s : String) : String := ⟨s.data.map Char.toLower⟩

/-- `cs.split(sep, 1)`: first part and remainder after the first `sep`,
or `none` when `sep` does not occur. -/
def splitFirst : List Char → Char → Option (List Char × List Char)
  | [], _ => none
  | c :: rest, sep =>
    if c = sep then some ([], rest)
    else match splitFirst rest sep with
      | none => none
      | some (a, b) => some (c :: a, b)

/-- `s.split(sep, 1)` on strings. -/
def splitFirstStr (s : String) (sep : Char) : Option (String × String) :=
  match splitFirst s.data sep with
  | none => none
  | some (a, b) => some (⟨a⟩, ⟨b⟩)

/-- Python string truthiness of an `Optional[str]`: `None` and `""` are falsy. -/
def truthyOpt : Option String → Bool
  | none => false
  | some s => !s.data.isEmpty

/-- JSON values (the wire format of every request body and response body). -/
inductive Json where
  | null : Json
  | bool : Bool → Json
  | num : Int → Json
  | str : String → Json
  | arr : List Json → Json
  | obj : List (String × Json) → Json

/-- One HTTP request as issued by the `requests` library calls in the source.
Header values are optional strings because Python happily stores `None`
as a header value (`CritiqueDynamicAPITool` does exactly that when no API
key is available). -/
structure HttpRequest where
  method : String
  url : String
  headers : List (String × Option String)
  body : Option Json

/-- One HTTP response: status code, body text, raw bytes
(`response.content`, used when fetching images) and parsed JSON
(`response.json()`). -/
structure HttpResponse where
  status_code : Nat
  text : String
  content : List Nat
  jsonBody : Json

/-- The network oracle: what the world answers to each request. -/
abbrev Http := HttpRequest → HttpResponse

/-- Error kinds of the adapter layer.  In Python all of them are `ValueError`
(or a pydantic `ValidationError` wrapping one); the constructor records the
raise site as classified by the spec: ConfigurationError, ValidationError,
FetchError, RequestError. -/
inductive Err where
  | config : String → Err
  | validation : String → Err
  | fetch : String → Err
  | request : String → Err

/-! ## base64 (`base64.b64encode` / `base64.b64decode`) -/

/-- The standard base64 alphabet. -/
def b64Alphabet : List Char :=
  "ABCDEFGHIJKLMNOPQRSTUVWXYZabcdefghijklmnopqrstuvwxyz0123456789+/".data

/-- Character of a 6-bit group. -/
def b64Char (n : Nat) : Char := b64Alphabet.getD n 'A'

/-- Value of an alphabet character; `none` for a character outside the
alphabet (`=` included). -/
def b64Val (c : Char) : Option Nat := b64Alphabet.indexOf? c

/-- `base64.b64encode`, byte list to characters. -/
def b64encodeBytes : List Nat → List Char
  | [] => []
  | [a] => [b64Char (a / 4 % 64), b64Char (a % 4 * 16), '=', '=']
  | [a, b] => [b64Char (a / 4 % 64), b64Char (a % 4 * 16 + b / 16),
               b64Char (b % 16 * 4), '=']
  | a :: b :: c :: rest =>
      [b64Char (a / 4 % 64), b64Char (a % 4 * 16 + b / 16),
       b64Char (b % 16 * 4 + c / 64), b64Char (c % 64)] ++ b64encodeBytes rest

/-- Bytes of a full group of four 6-bit values. -/
def b64EmitQuad : List Nat → List Nat
  | [a, b, c, d] => [a * 4 + b / 16, b % 16 * 16 + c / 4, c % 4 * 64 + d]
  | _ => []

/-- Bytes of a group completed by padding (two or three data characters). -/
def b64EmitPartial : List Nat → List Nat
  | [a, b] => [a * 4 + b / 16]
  | [a, b, c] => [a * 4 + b / 16, b % 16 * 16 + c / 4]
  | _ => []

/-- Decoding loop of CPython `binascii.a2b_base64` in non-strict mode (the
mode `base64.b64decode` uses with `validate=False`, the source's call):
characters outside the alphabet are skipped; `=` with fewer than two data
characters in the current group is ignored, and with enough padding to
complete the group it terminates decoding; every valid data character
resets the pad counter to zero (`pads = 0` in the C loop); a leftover
group at the end of input is an error (`none`). -/
def b64decodeLoop : List Char → List Nat → Nat → List Nat → Option (List Nat)
  | [], quad, _, acc => if quad.length = 0 then some acc else none
  | c :: rest, quad, pads, acc =>
    if c = '=' then
      if 2 ≤ quad.length then
        if 4 ≤ quad.length + pads + 1 then some (acc ++ b64EmitPartial quad)
        else b64decodeLoop rest quad (pads + 1) acc
      else b64decodeLoop rest quad pads acc
    else
      match b64Val c with
      | none => b64decodeLoop rest quad pads acc
      | some v =>
        if (quad ++ [v]).length = 4 then
          b64decodeLoop rest [] 0 (acc ++ b64EmitQuad (quad ++ [v]))
        else b64decodeLoop rest (quad ++ [v]) 0 acc

/-- `base64.b64decode` on a `str`; `none` models the raised error.  The
`str` input is first encoded as ASCII (`_bytes_from_decode_data`), so any
non-ASCII character is rejected before the `binascii` loop runs. -/
def b64decode (s : String) : Option (List Nat) :=
  if s.data.all (fun c => c.toNat ≤ 127) then b64decodeLoop s.data [] 0 []
  else none

/-! ## `urllib.parse.urlparse`

Model of the scheme/netloc/query/fragment splitting of `urlsplit` for the
URLs this repository validates, including the stdlib's input sanitizing:
leading C0-control-or-space characters are stripped and every embedded
tab, CR and LF is removed before parsing.  Omitted stdlib details that no
claim touches: IPv6 bracket checking and the `;params` split of the last
path segment. -/

structure UrlParseResult where
  scheme : String
  netloc : String
  path : String
  query : String
  fragment : String

/-- Characters allowed in a URL scheme. -/
def isSchemeChar (c : Char) : Bool :=
  c.isAlpha || c.isDigit || c = '+' || c = '-' || c = '.'

def urlparse (url : String) : UrlParseResult :=
  let cs := (url.data.dropWhile (fun c => c.toNat ≤ 32)).filter
    (fun c => ¬(c = '\t' ∨ c = '\r' ∨ c = '\n'))
  let (scheme, rest1) :=
    match splitFirst cs ':' with
    | some (pre, post) =>
      if pre ≠ [] ∧ (pre.headD ' ').isAlpha ∧ pre.all isSchemeChar then
        (pre.map Char.toLower, post)
      else (([] : List Char), cs)
    | none => (([] : List Char), cs)
  let (netloc, rest2) :=
    if ['/', '/'].isPrefixOf rest1 then
      let r := rest1.drop 2
      (r.takeWhile (fun c => ¬(c = '/' ∨ c = '?' ∨ c = '#')),
       r.dropWhile (fun c => ¬(c = '/' ∨ c = '?' ∨ c = '#')))
    else (([] : List Char), rest1)
  let (rest3, fragment) :=
    match splitFirst rest2 '#' with
    | some (pre, post) => (pre, post)
    | none => (rest2, ([] : List Char))
  let (path, query) :=
    match splitFirst rest3 '?' with
    | some (pre, post) => (pre, post)
    | none => (rest3, ([] : List Char))
  ⟨⟨scheme⟩, ⟨netloc⟩, ⟨path⟩, ⟨query⟩, ⟨fragment⟩⟩

/-! ## `CritiqueSearchInput.validate_image` (tools.py lines 35–56) -/

/-- The recognized image extensions. -/
def imageExts : List String := [".jpg", ".jpeg", ".png", ".gif"]

/-- The `@validator('image')` body, on a non-`None` image string.  Every
`raise ValueError` becomes `Err.validation` (pydantic wraps it in a
`ValidationError`). -/
def validate_image (v : String) : Except Err String :=
  if strStartsWith v "http" then
    let result := urlparse v
    if result.scheme = "" ∨ result.netloc = "" then
      .error (.validation "Invalid image URL: Invalid URL format")
    else if imageExts.any (fun ext => strEndsWith (lowerStr v) ext) then
      .ok v
    else
      .error (.validation "Invalid image URL: URL must point to an image file")
  else if strStartsWith v "data:image" then
    match splitFirstStr v ',' with
    | none => .error (.validation "Invalid base64 image format")
    | some (_, d) =>
      match b64decode d with
      | none => .error (.validation "Invalid base64 image format")
      | some _ => .ok v
  else
    .error (.validation "Image must be either a URL or base64 encoded string")

/-! ## Shared configuration (tools.py `__init__` bodies) -/

/-- The default `base_url` of all three tools. -/
def defaultBaseUrl : String := "https://api.critiquebrowser.app"

/-- The message of the missing-key `ValueError`. -/
def keyErrorMsg : String :=
  "Critique API key must be provided either through api_key parameter or CRITIQUE_API_KEY environment variable"

/-- `api_key or os.getenv("CRITIQUE_API_KEY")` with Python truthiness. -/
def resolveKey (api_key env_key : Option String) : Option String :=
  if truthyOpt api_key then api_key else env_key

/-- The `self.headers` dict built by every tool. -/
def mkHeaders (key : Option String) : List (String × Option String) :=
  [("X-API-Key", key), ("Content-Type", some "application/json")]

/-! ## `CritiqueSearchTool` (tools.py lines 59–186) -/

structure CritiqueSearchTool where
  api_key : String
  base_url : String
  headers : List (String × Option String)

/-- `CritiqueSearchTool.__init__`: resolves the key from the argument or the
`CRITIQUE_API_KEY` environment variable (`env_key`), raising `ValueError`
when neither is truthy. -/
def CritiqueSearchTool.init (api_key env_key : Option String) (base_url : String) :
    Except Err CritiqueSearchTool :=
  let k := resolveKey api_key env_key
  if truthyOpt k then
    .ok { api_key := k.getD "", base_url := base_url, headers := mkHeaders k }
  else .error (.config keyErrorMsg)

/-- The `requests.get(image_url)` request (no headers attached). -/
def imageGetRequest (image_url : String) : HttpRequest :=
  { method := "GET", url := image_url, headers := [], body := none }

/-- `CritiqueSearchTool._image_to_base64`: fetch the URL, require status
exactly 200, re-encode the bytes with a hard-coded `image/jpeg` media type. -/
def CritiqueSearchTool.imageToBase64 (image_url : String) (http : Http) :
    Except Err String × List HttpRequest :=
  let resp := http (imageGetRequest image_url)
  if resp.status_code = 200 then
    (.ok ("data:image/jpeg;base64," ++ String.mk (b64encodeBytes resp.content)),
     [imageGetRequest image_url])
  else
    (.error (.fetch ("Failed to fetch image. Status code: " ++ toString resp.status_code)),
     [imageGetRequest image_url])

/-- `CritiqueSearchTool._run`.  The first component is the returned JSON or
the raised error; the second lists the HTTP requests issued, in order. -/
def CritiqueSearchTool.run (t : CritiqueSearchTool) (prompt : String)
    (image : Option String) (source_blacklist : Option (List String))
    (output_format : Option Json) (http : Http) :
    Except Err Json × List HttpRequest :=
  let fetchStep : Except Err (Option String) × List HttpRequest :=
    match image with
    | some img =>
      if truthyOpt (some img) ∧ strStartsWith img "http" then
        match CritiqueSearchTool.imageToBase64 img http with
        | (.ok s, reqs) => (.ok (some s), reqs)
        | (.error e, reqs) => (.error e, reqs)
      else (.ok (some img), [])
    | none => (.ok none, [])
  match fetchStep with
  | (.error e, reqs) => (.error e, reqs)
  | (.ok image2, reqs) =>
    let payloadBase : List (String × Json) :=
      [("prompt", .str prompt),
       ("source_blacklist", .arr ((source_blacklist.getD []).map Json.str)),
       ("output_format", (output_format.getD (.obj [])))]
    let payload : List (String × Json) :=
      match image2 with
      | some img => if truthyOpt (some img) then payloadBase ++ [("image", .str img)] else payloadBase
      | none => payloadBase
    let req : HttpRequest :=
      { method := "POST", url := t.base_url ++ "/v1/search",
        headers := t.headers, body := some (.obj payload) }
    let resp := http req
    if resp.status_code = 200 then (.ok resp.jsonBody, reqs ++ [req])
    else (.error (.request ("Search failed: " ++ resp.text)), reqs ++ [req])

/-! ## `CritiqueAPIDesignTool` (tools.py lines 189–346) -/

inductive APIOperation where
  | create | update | delete | list

structure CritiqueAPIDesignTool where
  api_key : String
  base_url : String
  headers : List (String × Option String)

/-- `CritiqueAPIDesignTool.__init__` (same key resolution as the search tool). -/
def CritiqueAPIDesignTool.init (api_key env_key : Option String) (base_url : String) :
    Except Err CritiqueAPIDesignTool :=
  let k := resolveKey api_key env_key
  if truthyOpt k then
    .ok { api_key := k.getD "", base_url := base_url, headers := mkHeaders k }
  else .error (.config keyErrorMsg)

/-- Optional string as a JSON value (`None` serializes to `null`). -/
def jsonOfOptStr : Option String → Json
  | none => .null
  | some s => .str s

/-- `CritiqueAPIDesignTool._run`: dispatch on the operation, each branch
validating its own precondition before building its single HTTP request. -/
def CritiqueAPIDesignTool.run (t : CritiqueAPIDesignTool) (operation : APIOperation)
    (prompt api_id : Option String) (schema_updates : Option Json) (http : Http) :
    Except Err Json × List HttpRequest :=
  let endpoint := t.base_url ++ "/v1/design-api"
  let step : Except Err HttpRequest :=
    match operation with
    | .list => .ok { method := "GET", url := endpoint, headers := t.headers, body := none }
    | .delete =>
      if truthyOpt api_id then
        .ok { method := "DELETE", url := endpoint ++ "/" ++ api_id.getD "",
              headers := t.headers, body := none }
      else .error (.validation "api_id is required for delete operation")
    | .create =>
      if truthyOpt prompt then
        .ok { method := "POST", url := endpoint, headers := t.headers,
              body := some (.obj [("original_prompt", .str (prompt.getD "")), ("id", .null)]) }
      else .error (.validation "prompt is required for create operation")
    | .update =>
      if truthyOpt api_id then
        .ok { method := "POST", url := endpoint, headers := t.headers,
              body := some (.obj [("id", .str (api_id.getD "")),
                                  ("prompt", jsonOfOptStr prompt),
                                  ("schema_updates", schema_updates.getD .null)]) }
      else .error (.validation "api_id is required for update operation")
  match step with
  | .error e => (.error e, [])
  | .ok req =>
    let resp := http req
    if resp.status_code = 200 then (.ok resp.jsonBody, [req])
    else (.error (.request ("API design operation failed: " ++ resp.text)), [req])

/-! ## `CritiqueDynamicAPITool` (tools.py lines 349–399) -/

/-- Type annotations accepted for a dynamic field: a primitive or a list of
a declared item type. -/
inductive FieldType where
  | str | int | float | bool
  | listOf : FieldType → FieldType

/-- The raw value found under `"type"` in one `input_schema` entry: either a
supported type annotation, or some other object `create_model` rejects. -/
inductive RawType where
  | supported : FieldType → RawType
  | unsupported : String → RawType

/-- One raw field spec (`{"type": ..., "description": ...}`); a missing
`"description"` key is `none` — `v.get("description", "")` defaults it. -/
structure RawFieldSpec where
  ftype : RawType
  description : Option String

/-- One compiled field of the `create_model` result: its annotation and its
`Field(..., description=...)` metadata; `Field(...)` makes it required. -/
structure CompiledField where
  ftype : FieldType
  description : String

/-- `some` of the annotation when `create_model` accepts it. -/
def compileType : RawType → Option FieldType
  | .supported t => some t
  | .unsupported _ => none

/-- The `create_model(f"CritiqueAPI_{api_id}_Input", **{...})` call: compile
each entry in order, failing on the first unsupported type annotation. -/
def buildArgsSchema : List (String × RawFieldSpec) → Option (List (String × CompiledField))
  | [] => some []
  | (k, sp) :: rest =>
    match compileType sp.ftype with
    | none => none
    | some t =>
      match buildArgsSchema rest with
      | none => none
      | some fs => some ((k, ⟨t, sp.description.getD ""⟩) :: fs)

structure CritiqueDynamicAPITool where
  api_id : String
  name : String
  description : String
  api_key : Option String
  base_url : String
  headers : List (String × Option String)
  args_schema : List (String × CompiledField)

/-- `CritiqueDynamicAPITool.__init__`.  Faithful to the source: the key is
resolved from the argument or the environment but — unlike the other two
tools — never checked, so a missing key is stored (as `None`) in the auth
header; the only failure is `create_model` rejecting a field annotation. -/
def CritiqueDynamicAPITool.init (api_id nm descr : String)
    (input_schema : List (String × RawFieldSpec)) (api_key env_key : Option String)
    (base_url : String) : Except Err CritiqueDynamicAPITool :=
  let k := resolveKey api_key env_key
  match buildArgsSchema input_schema with
  | none => .error (.validation "unsupported field type in input_schema")
  | some fs =>
    .ok { api_id := api_id, name := nm, description := descr, api_key := k,
          base_url := base_url, headers := mkHeaders k, args_schema := fs }

/-- The annotation carried by a supported raw type (defaulting arbitrarily on
the unsupported constructor, which `buildArgsSchema` never compiles). -/
def rawToField : RawType → FieldType
  | .supported t => t
  | .unsupported _ => .str

/-- `conformsTo v t`: the pydantic type check of value `v` against
annotation `t` (recursion on the annotation). -/
def conformsTo (v : Json) : FieldType → Bool
  | .str => match v with | .str _ => true | _ => false
  | .int => match v with | .num _ => true | _ => false
  | .float => match v with | .num _ => true | _ => false
  | .bool => match v with | .bool _ => true | _ => false
  | .listOf t => match v with | .arr xs => xs.all (fun x => conformsTo x t) | _ => false

/-- First value bound to key `k` in the input mapping. -/
def lookupField (input : List (String × Json)) (k : String) : Option Json :=
  match input.find? (fun p => p.1 = k) with
  | none => none
  | some p => some p.2

/-- Validation of an input mapping against the compiled schema: every
declared field must be present and type-conformant; the validated mapping
keeps the declared fields in schema order (extra fields are dropped, the
pydantic default). -/
def validateFields : List (String × CompiledField) → List (String × Json) →
    Option (List (String × Json))
  | [], _ => some []
  | (k, f) :: rest, input =>
    match lookupField input k with
    | none => none
    | some v =>
      if conformsTo v f.ftype then
        match validateFields rest input with
        | none => none
        | some kw => some ((k, v) :: kw)
      else none

/-- The pydantic validation step `tool.invoke` performs through
`args_schema` before `_run` receives the kwargs. -/
def CritiqueDynamicAPITool.validateArgs (t : CritiqueDynamicAPITool)
    (input : List (String × Json)) : Except Err (List (String × Json)) :=
  match validateFields t.args_schema input with
  | none => .error (.validation "input does not conform to args_schema")
  | some kw => .ok kw

/-- `CritiqueDynamicAPITool._run` behind its validator: validate, then POST
the validated kwargs to `{base_url}/v1/user-defined-service/{api_id}`. -/
def CritiqueDynamicAPITool.invoke (t : CritiqueDynamicAPITool)
    (input : List (String × Json)) (http : Http) : Except Err Json × List HttpRequest :=
  match t.validateArgs input with
  | .error e => (.error e, [])
  | .ok kwargs =>
    let req : HttpRequest :=
      { method := "POST", url := t.base_url ++ "/v1/user-defined-service/" ++ t.api_id,
        headers := t.headers, body := some (.obj kwargs) }
    let resp := http req
    if resp.status_code = 200 then (.ok resp.jsonBody, [req])
    else (.error (.request ("API execution failed: " ++ resp.text)), [req])

/-! ## Helper lemmas -/

theorem lookupField_cons_eq (p : String × Json) (input : List (String × Json))
    (k : String) (h : p.1 = k) : lookupField (p :: input) k = some p.2 := by
  simp [lookupField, List.find?, h]

theorem lookupField_cons_ne (p : String × Json) (input : List (String × Json))
    (k : String) (h : p.1 ≠ k) : lookupField (p :: input) k = lookupField input k := by
  simp [lookupField, List.find?, h]

theorem validateFields_missing (fs : List (String × CompiledField))
    (input : List (String × Json)) (k : String)
    (hk : k ∈ fs.map Prod.fst) (hl : lookupField input k = none) :
    validateFields fs input = none := by
  induction fs with
  | nil => simp at hk
  | cons q fs ih =>
    obtain ⟨k0, f0⟩ := q
    simp only [List.map_cons, List.mem_cons] at hk
    by_cases hk0 : k0 = k
    · subst hk0
      simp [validateFields, hl]
    · have hk' : k ∈ fs.map Prod.fst := by
        rcases hk with h | h
        · exact absurd h.symm hk0
        · exact h
      simp only [validateFields]
      cases hl0 : lookupField input k0 with
      | none => rfl
      | some v =>
        by_cases hc : conformsTo v f0.ftype = true
        · simp [hc, ih hk']
        · simp [hc]

theorem validateFields_skip (fs : List (String × CompiledField))
    (k : String) (v : Json) (input : List (String × Json))
    (hk : k ∉ fs.map Prod.fst) :
    validateFields fs ((k, v) :: input) = validateFields fs input := by
  induction fs with
  | nil => rfl
  | cons q fs ih =>
    obtain ⟨k0, f0⟩ := q
    simp only [List.map_cons, List.mem_cons] at hk
    push_neg at hk
    have hne : k ≠ k0 := hk.1
    have hrest := ih hk.2
    simp only [validateFields, lookupField_cons_ne (k, v) input k0 (by simpa using hne), hrest]

theorem validateFields_exact (fs : List (String × CompiledField))
    (input : List (String × Json))
    (h : List.Forall₂ (fun (p : String × Json) (q : String × CompiledField) =>
           p.1 = q.1 ∧ conformsTo p.2 q.2.ftype = true) input fs)
    (hnd : (fs.map Prod.fst).Nodup) :
    validateFields fs input = some input := by
  induction h with
  | nil => rfl
  | @cons p q input' fs' hpq h' ih =>
    obtain ⟨hk, hc⟩ := hpq
    simp only [List.map_cons, List.nodup_cons] at hnd
    have hlook : lookupField (p :: input') q.1 = some p.2 := lookupField_cons_eq p input' q.1 hk
    have hskip : validateFields fs' (p :: input') = validateFields fs' input' := by
      apply validateFields_skip
      rw [hk]; exact hnd.1
    obtain ⟨k0, f0⟩ := q
    simp only [validateFields, hlook, hc, if_true, hskip, ih hnd.2]
    simp only at hk
    rw [← hk]

theorem buildArgsSchema_keys (s : List (String × RawFieldSpec))
    (fs : List (String × CompiledField)) (h : buildArgsSchema s = some fs) :
    fs.map Prod.fst = s.map Prod.fst := by
  induction s generalizing fs with
  | nil =>
    simp only [buildArgsSchema, Option.some.injEq] at h
    subst h; rfl
  | cons q s ih =>
    obtain ⟨k0, sp0⟩ := q
    simp only [buildArgsSchema] at h
    cases hc : compileType sp0.ftype with
    | none => rw [hc] at h; exact absurd h (by simp)
    | some t =>
      rw [hc] at h
      cases hr : buildArgsSchema s with
      | none => rw [hr] at h; exact absurd h (by simp)
      | some fs' =>
        rw [hr] at h
        simp only [Option.some.injEq] at h
        subst h
        simp [ih fs' hr]

theorem buildArgsSchema_all_supported (s : List (String × RawFieldSpec))
    (h : ∀ p ∈ s, ∃ ft, p.2.ftype = RawType.supported ft) :
    buildArgsSchema s =
      some (s.map fun p => (p.1, ⟨rawToField p.2.ftype, p.2.description.getD ""⟩)) := by
  induction s with
  | nil => rfl
  | cons q s ih =>
    obtain ⟨k0, sp0⟩ := q
    obtain ⟨ft, hft⟩ := h (k0, sp0) (List.mem_cons_self _ _)
    simp only at hft
    have hrest := ih (fun p hp => h p (List.mem_cons_of_mem _ hp))
    simp [buildArgsSchema, hft, compileType, hrest, rawToField]

theorem buildArgsSchema_unsupported (s : List (String × RawFieldSpec))
    (h : ∃ p ∈ s, ∃ unm, p.2.ftype = RawType.unsupported unm) :
    buildArgsSchema s = none := by
  induction s with
  | nil => simp at h
  | cons q s ih =>
    obtain ⟨k0, sp0⟩ := q
    obtain ⟨p, hp, unm, hunm⟩ := h
    rcases List.mem_cons.mp hp with heq | hmem
    · subst heq
      simp only at hunm
      simp [buildArgsSchema, hunm, compileType]
    · simp only [buildArgsSchema]
      cases hc : compileType sp0.ftype with
      | none => rfl
      | some t => rw [ih ⟨p, hmem, unm, hunm⟩]

/-- The image payload built by `_image_to_base64` never looks like an HTTP
URL: its media-type marker starts with the character `d`. -/
theorem dataUrlNotHttp (s : String) :
    strStartsWith ("data:image/jpeg;base64," ++ s) "http" = false := rfl

/-! ## Claim theorems -/

/-- C10: for every remote image URL fetched successfully (status 200) during
search, `_image_to_base64` substitutes an embedded payload that always
carries the media-type marker `data:image/jpeg;base64,` regardless of the
actual image format indicated by the URL's extension. -/
theorem c10_jpeg_label (image_url : String) (http : Http)
    (h200 : (http (imageGetRequest image_url)).status_code = 200) :
    CritiqueSearchTool.imageToBase64 image_url http =
      (.ok ("data:image/jpeg;base64," ++
         String.mk (b64encodeBytes (http (imageGetRequest image_url)).content)),
       [imageGetRequest image_url]) := by
  simp [CritiqueSearchTool.imageToBase64, h200]

/-- Witness for C10: a `.png` URL fetched with status 200 and bytes
`[1, 2, 3]` is still labeled `image/jpeg`. -/
theorem c10_jpeg_label_witness :
    (((fun _ => (⟨200, "", [1, 2, 3], Json.null⟩ : HttpResponse)) : Http)
        (imageGetRequest "https://x/img.png")).status_code = 200 ∧
    CritiqueSearchTool.imageToBase64 "https://x/img.png"
        (fun _ => ⟨200, "", [1, 2, 3], Json.null⟩) =
      (.ok "data:image/jpeg;base64,AQID", [imageGetRequest "https://x/img.png"]) :=
  ⟨rfl, c10_jpeg_label "https://x/img.png" (fun _ => ⟨200, "", [1, 2, 3], Json.null⟩) rfl⟩

/-- C9: constructing two `CritiqueDynamicAPITool` instances from the same
field-spec mapping (same identifier, name, description and credentials)
yields validators that accept and reject exactly the same inputs. -/
theorem c9_validator_deterministic (api_id nm d : String)
    (schema : List (String × RawFieldSpec)) (key env : Option String) (burl : String)
    (t1 t2 : CritiqueDynamicAPITool)
    (h1 : CritiqueDynamicAPITool.init api_id nm d schema key env burl = .ok t1)
    (h2 : CritiqueDynamicAPITool.init api_id nm d schema key env burl = .ok t2)
    (input : List (String × Json)) :
    t1.validateArgs input = t2.validateArgs input := by
  rw [h1] at h2
  injection h2 with h
  rw [h]

/-- Witness for C9: two constructions from the one-field schema `f : str`
validate the input `{f: "x"}` identically. -/
theorem c9_validator_deterministic_witness :
    CritiqueDynamicAPITool.init "a1" "n" "d"
        [("f", ⟨RawType.supported FieldType.str, none⟩)] (some "k") none defaultBaseUrl =
      .ok ⟨"a1", "n", "d", some "k", defaultBaseUrl, mkHeaders (some "k"),
           [("f", ⟨FieldType.str, ""⟩)]⟩ ∧
    CritiqueDynamicAPITool.validateArgs
        ⟨"a1", "n", "d", some "k", defaultBaseUrl, mkHeaders (some "k"),
         [("f", ⟨FieldType.str, ""⟩)]⟩ [("f", Json.str "x")] =
      CritiqueDynamicAPITool.validateArgs
        ⟨"a1", "n", "d", some "k", defaultBaseUrl, mkHeaders (some "k"),
         [("f", ⟨FieldType.str, ""⟩)]⟩ [("f", Json.str "x")] :=
  ⟨rfl,
   c9_validator_deterministic "a1" "n" "d"
     [("f", ⟨RawType.supported FieldType.str, none⟩)] (some "k") none defaultBaseUrl
     _ _ rfl rfl [("f", Json.str "x")]⟩

/-- C8: constructing a `CritiqueDynamicAPITool` fails at construction time
(not at first invocation) when any field spec names an unsupported type;
when all types are supported it succeeds, with a missing description
tolerated and defaulted to the empty string. -/
theorem c8_construction_validation (api_id nm d : String)
    (schema : List (String × RawFieldSpec)) (key env : Option String) (burl : String) :
    ((∃ p ∈ schema, ∃ unm, p.2.ftype = RawType.unsupported unm) →
       CritiqueDynamicAPITool.init api_id nm d schema key env burl =
         .error (.validation "unsupported field type in input_schema")) ∧
    ((∀ p ∈ schema, ∃ ft, p.2.ftype = RawType.supported ft) →
       CritiqueDynamicAPITool.init api_id nm d schema key env burl =
         .ok { api_id := api_id, name := nm, description := d,
               api_key := resolveKey key env, base_url := burl,
               headers := mkHeaders (resolveKey key env),
               args_schema := schema.map fun p =>
                 (p.1, ⟨rawToField p.2.ftype, p.2.description.getD ""⟩) }) := by
  constructor
  · intro h
    simp [CritiqueDynamicAPITool.init, buildArgsSchema_unsupported schema h]
  · intro h
    simp [CritiqueDynamicAPITool.init, buildArgsSchema_all_supported schema h]

/-- Witness for C8: a one-field schema with an unsupported type fails at
construction; a one-field schema with type `int` and no description
succeeds with description `""`. -/
theorem c8_construction_validation_witness :
    CritiqueDynamicAPITool.init "a1" "n" "d"
        [("bad", ⟨RawType.unsupported "Foo", none⟩)] (some "k") none defaultBaseUrl =
      .error (.validation "unsupported field type in input_schema") ∧
    CritiqueDynamicAPITool.init "a1" "n" "d"
        [("ok", ⟨RawType.supported FieldType.int, none⟩)] (some "k") none defaultBaseUrl =
      .ok ⟨"a1", "n", "d", some "k", defaultBaseUrl, mkHeaders (some "k"),
           [("ok", ⟨FieldType.int, ""⟩)]⟩ := by
  constructor
  · exact (c8_construction_validation "a1" "n" "d"
      [("bad", ⟨RawType.unsupported "Foo", none⟩)] (some "k") none defaultBaseUrl).1
      ⟨("bad", ⟨RawType.unsupported "Foo", none⟩), by simp, "Foo", rfl⟩
  · exact (c8_construction_validation "a1" "n" "d"
      [("ok", ⟨RawType.supported FieldType.int, none⟩)] (some "k") none defaultBaseUrl).2
      (by intro p hp; simp at hp; subst hp; exact ⟨FieldType.int, rfl⟩)

/-- C4: for an image string that is not an HTTP(S) URL: if it starts with
the `data:image` marker and the payload after the first comma decodes as
base64, validation succeeds; if the payload fails to decode (or there is no
comma), validation fails with a ValidationError; and a string starting with
neither marker fails with a ValidationError. -/
theorem c4_embedded_image (v : String) (hv : strStartsWith v "http" = false) :
    (strStartsWith v "data:image" = true →
       (∀ hdr d, splitFirstStr v ',' = some (hdr, d) →
          ((∃ bs, b64decode d = some bs) → validate_image v = .ok v) ∧
          (b64decode d = none →
             validate_image v = .error (.validation "Invalid base64 image format"))) ∧
       (splitFirstStr v ',' = none →
          validate_image v = .error (.validation "Invalid base64 image format"))) ∧
    (strStartsWith v "data:image" = false →
       validate_image v =
         .error (.validation "Image must be either a URL or base64 encoded string")) := by
  constructor
  · intro hd
    constructor
    · intro hdr d hsplit
      constructor
      · rintro ⟨bs, hbs⟩
        simp [validate_image, hv, hd, hsplit, hbs]
      · intro hbs
        simp [validate_image, hv, hd, hsplit, hbs]
    · intro hsplit
      simp [validate_image, hv, hd, hsplit]
  · intro hd
    simp [validate_image, hv, hd]

/-- Witness for C4: a valid embedded PNG payload passes; the payloadless
string from the unit tests fails. -/
theorem c4_embedded_image_witness :
    strStartsWith "data:image/png;base64,aGVsbG8=" "http" = false ∧
    strStartsWith "data:image/png;base64,aGVsbG8=" "data:image" = true ∧
    splitFirstStr "data:image/png;base64,aGVsbG8=" ',' =
      some ("data:image/png;base64", "aGVsbG8=") ∧
    b64decode "aGVsbG8=" = some [104, 101, 108, 108, 111] ∧
    validate_image "data:image/png;base64,aGVsbG8=" = .ok "data:image/png;base64,aGVsbG8=" := by
  refine ⟨rfl, rfl, rfl, rfl, ?_⟩
  exact (((c4_embedded_image "data:image/png;base64,aGVsbG8=" rfl).1 rfl).1
    "data:image/png;base64" "aGVsbG8=" rfl).1 ⟨[104, 101, 108, 108, 111], rfl⟩

/-- C5: `designAPI` dispatches on the operation tag exactly per the table:
LIST issues a GET with no precondition; DELETE requires `api_id` (else
ValidationError, no request sent) and issues DELETE to `endpoint/{api_id}`;
CREATE requires `prompt` and POSTs `{original_prompt, id: null}`; UPDATE
requires `api_id` and POSTs `{id, prompt, schema_updates}`. -/
theorem c5_design_dispatch (t : CritiqueAPIDesignTool) (prompt api_id : Option String)
    (su : Option Json) (http : Http) :
    ((t.run .list prompt api_id su http).2 =
       [⟨"GET", t.base_url ++ "/v1/design-api", t.headers, none⟩]) ∧
    (truthyOpt api_id = false →
       t.run .delete prompt api_id su http =
         (.error (.validation "api_id is required for delete operation"), []) ∧
       t.run .update prompt api_id su http =
         (.error (.validation "api_id is required for update operation"), [])) ∧
    (truthyOpt api_id = true →
       (t.run .delete prompt api_id su http).2 =
         [⟨"DELETE", t.base_url ++ "/v1/design-api" ++ "/" ++ api_id.getD "",
           t.headers, none⟩] ∧
       (t.run .update prompt api_id su http).2 =
         [⟨"POST", t.base_url ++ "/v1/design-api", t.headers,
           some (.obj [("id", .str (api_id.getD "")),
                       ("prompt", jsonOfOptStr prompt),
                       ("schema_updates", su.getD .null)])⟩]) ∧
    (truthyOpt prompt = false →
       t.run .create prompt api_id su http =
         (.error (.validation "prompt is required for create operation"), [])) ∧
    (truthyOpt prompt = true →
       (t.run .create prompt api_id su http).2 =
         [⟨"POST", t.base_url ++ "/v1/design-api", t.headers,
           some (.obj [("original_prompt", .str (prompt.getD "")), ("id", .null)])⟩]) := by
  refine ⟨?_, ?_, ?_, ?_, ?_⟩
  · simp only [CritiqueAPIDesignTool.run]
    split <;> rfl
  · intro h
    constructor <;> simp [CritiqueAPIDesignTool.run, h]
  · intro h
    constructor
    · simp only [CritiqueAPIDesignTool.run, h, if_true]
      split <;> rfl
    · simp only [CritiqueAPIDesignTool.run, h, if_true]
      split <;> rfl
  · intro h
    simp [CritiqueAPIDesignTool.run, h]
  · intro h
    simp only [CritiqueAPIDesignTool.run, h, if_true]
    split <;> rfl

/-- Witness for C5: with `api_id = "a1"` present, DELETE issues exactly one
DELETE request to `…/v1/design-api/a1`; with it absent, UPDATE fails with a
ValidationError and no request. -/
theorem c5_design_dispatch_witness :
    truthyOpt (some "a1") = true ∧
    (CritiqueAPIDesignTool.run ⟨"k", "https://api.critiquebrowser.app", mkHeaders (some "k")⟩
        .delete none (some "a1") none (fun _ => ⟨200, "", [], Json.obj []⟩)).2 =
      [⟨"DELETE", "https://api.critiquebrowser.app/v1/design-api/a1",
        mkHeaders (some "k"), none⟩] ∧
    truthyOpt (none : Option String) = false ∧
    CritiqueAPIDesignTool.run ⟨"k", "https://api.critiquebrowser.app", mkHeaders (some "k")⟩
        .update none none none (fun _ => ⟨200, "", [], Json.obj []⟩) =
      (.error (.validation "api_id is required for update operation"), []) :=
  ⟨rfl,
   ((c5_design_dispatch ⟨"k", "https://api.critiquebrowser.app", mkHeaders (some "k")⟩
      none (some "a1") none (fun _ => ⟨200, "", [], Json.obj []⟩)).2.2.1 rfl).1,
   rfl,
   ((c5_design_dispatch ⟨"k", "https://api.critiquebrowser.app", mkHeaders (some "k")⟩
      none none none (fun _ => ⟨200, "", [], Json.obj []⟩)).2.1 rfl).2⟩

/-- Counterexample for C6: a mock returning HTTP 201 — a 2xx status — with
body `"created"` makes the search call raise instead of returning the
parsed JSON body: the source tests `status_code != 200`, not "non-2xx". -/
theorem c6_counterexample :
    (CritiqueSearchTool.run ⟨"k", defaultBaseUrl, mkHeaders (some "k")⟩ "ping"
        none none none (fun _ => ⟨201, "created", [], Json.obj []⟩)).1 =
      .error (.request "Search failed: created") := rfl

/-- C6 as amended: a response with status other than exactly 200 raises an
error whose message contains the response body text, and a status-200
response returns the parsed JSON body — for search, designAPI and dynamic
invoke alike; in particular HTTP 500 with body `"server error"` raises an
error carrying `"server error"`. -/
theorem c6_status_handling (resp : HttpResponse) :
    (∀ (t : CritiqueSearchTool) (p : String),
       (resp.status_code ≠ 200 →
          (t.run p none none none (fun _ => resp)).1 =
            .error (.request ("Search failed: " ++ resp.text))) ∧
       (resp.status_code = 200 →
          (t.run p none none none (fun _ => resp)).1 = .ok resp.jsonBody)) ∧
    (∀ t : CritiqueAPIDesignTool,
       (resp.status_code ≠ 200 →
          (t.run .list none none none (fun _ => resp)).1 =
            .error (.request ("API design operation failed: " ++ resp.text))) ∧
       (resp.status_code = 200 →
          (t.run .list none none none (fun _ => resp)).1 = .ok resp.jsonBody)) ∧
    (∀ (t : CritiqueDynamicAPITool) (input kw : List (String × Json)),
       validateFields t.args_schema input = some kw →
       (resp.status_code ≠ 200 →
          (t.invoke input (fun _ => resp)).1 =
            .error (.request ("API execution failed: " ++ resp.text))) ∧
       (resp.status_code = 200 →
          (t.invoke input (fun _ => resp)).1 = .ok resp.jsonBody)) := by
  refine ⟨?_, ?_, ?_⟩
  · intro t p
    constructor
    · intro h; simp [CritiqueSearchTool.run, h]
    · intro h; simp [CritiqueSearchTool.run, h]
  · intro t
    constructor
    · intro h; simp [CritiqueAPIDesignTool.run, h]
    · intro h; simp [CritiqueAPIDesignTool.run, h]
  · intro t input kw hvf
    constructor
    · intro h
      simp [CritiqueDynamicAPITool.invoke, CritiqueDynamicAPITool.validateArgs, hvf, h]
    · intro h
      simp [CritiqueDynamicAPITool.invoke, CritiqueDynamicAPITool.validateArgs, hvf, h]

/-- Witness for C6 as amended: HTTP 500 with body `"server error"` makes
all three adapter calls raise an error carrying `"server error"`. -/
theorem c6_status_handling_witness :
    (500 : Nat) ≠ 200 ∧
    (CritiqueSearchTool.run ⟨"k", defaultBaseUrl, mkHeaders (some "k")⟩ "ping"
        none none none (fun _ => ⟨500, "server error", [], Json.null⟩)).1 =
      .error (.request "Search failed: server error") ∧
    (CritiqueAPIDesignTool.run ⟨"k", defaultBaseUrl, mkHeaders (some "k")⟩ .list
        none none none (fun _ => ⟨500, "server error", [], Json.null⟩)).1 =
      .error (.request "API design operation failed: server error") ∧
    (CritiqueDynamicAPITool.invoke
        ⟨"a1", "n", "d", some "k", defaultBaseUrl, mkHeaders (some "k"), []⟩ []
        (fun _ => ⟨500, "server error", [], Json.null⟩)).1 =
      .error (.request "API execution failed: server error") :=
  ⟨by decide,
   ((c6_status_handling ⟨500, "server error", [], Json.null⟩).1
      ⟨"k", defaultBaseUrl, mkHeaders (some "k")⟩ "ping").1 (by decide),
   ((c6_status_handling ⟨500, "server error", [], Json.null⟩).2.1
      ⟨"k", defaultBaseUrl, mkHeaders (some "k")⟩).1 (by decide),
   ((c6_status_handling ⟨500, "server error", [], Json.null⟩).2.2
      ⟨"a1", "n", "d", some "k", defaultBaseUrl, mkHeaders (some "k"), []⟩ [] [] rfl).1
     (by decide)⟩

/-- Counterexample for C1: constructing `CritiqueDynamicAPITool` with no
explicit key and the environment variable unset does *not* fail — it
succeeds, storing the absent key (`none`) in the `X-API-Key` header. -/
theorem c1_counterexample :
    CritiqueDynamicAPITool.init "api_1" "n" "d" [] none none defaultBaseUrl =
      .ok ⟨"api_1", "n", "d", none, defaultBaseUrl,
           [("X-API-Key", none), ("Content-Type", some "application/json")], []⟩ := rfl

/-- C1 as amended: `CritiqueSearchTool` and `CritiqueAPIDesignTool` fail
with a configuration error at construction when no key is provided and the
environment variable is unset; `CritiqueDynamicAPITool` performs no such
check — its construction succeeds (whenever the schema compiles) with the
absent key stored in the auth header.  When a key is available from either
source, construction of each adapter succeeds and the resolved key is
stored in the auth header. -/
theorem c1_key_resolution :
    (∀ burl, CritiqueSearchTool.init none none burl = .error (.config keyErrorMsg)) ∧
    (∀ burl, CritiqueAPIDesignTool.init none none burl = .error (.config keyErrorMsg)) ∧
    (∀ api_id nm d burl (schema : List (String × RawFieldSpec)),
       (∀ p ∈ schema, ∃ ft, p.2.ftype = RawType.supported ft) →
       ∃ t, CritiqueDynamicAPITool.init api_id nm d schema none none burl = .ok t ∧
            t.api_key = none ∧ t.headers = mkHeaders none) ∧
    (∀ k, truthyOpt (some k) = true →
       (∀ env burl, CritiqueSearchTool.init (some k) env burl =
          .ok ⟨k, burl, mkHeaders (some k)⟩) ∧
       (∀ burl, CritiqueSearchTool.init none (some k) burl =
          .ok ⟨k, burl, mkHeaders (some k)⟩) ∧
       (∀ env burl, CritiqueAPIDesignTool.init (some k) env burl =
          .ok ⟨k, burl, mkHeaders (some k)⟩) ∧
       (∀ burl, CritiqueAPIDesignTool.init none (some k) burl =
          .ok ⟨k, burl, mkHeaders (some k)⟩) ∧
       (∀ api_id nm d schema env burl t,
          CritiqueDynamicAPITool.init api_id nm d schema (some k) env burl = .ok t →
          t.api_key = some k ∧ t.headers = mkHeaders (some k)) ∧
       (∀ api_id nm d schema burl t,
          CritiqueDynamicAPITool.init api_id nm d schema none (some k) burl = .ok t →
          t.api_key = some k ∧ t.headers = mkHeaders (some k))) := by
  refine ⟨fun burl => rfl, fun burl => rfl, ?_, ?_⟩
  · intro api_id nm d burl schema h
    refine ⟨⟨api_id, nm, d, none, burl, mkHeaders none,
      schema.map fun p => (p.1, ⟨rawToField p.2.ftype, p.2.description.getD ""⟩)⟩,
      ?_, rfl, rfl⟩
    simp [CritiqueDynamicAPITool.init, buildArgsSchema_all_supported schema h,
      resolveKey, truthyOpt]
  · intro k hk
    refine ⟨?_, ?_, ?_, ?_, ?_, ?_⟩
    · intro env burl
      simp [CritiqueSearchTool.init, resolveKey, hk, mkHeaders]
    · intro burl
      have hk' : k.data ≠ [] := fun he => by simp [truthyOpt, he] at hk
      simp [CritiqueSearchTool.init, resolveKey, hk, truthyOpt, mkHeaders, hk']
    · intro env burl
      simp [CritiqueAPIDesignTool.init, resolveKey, hk, mkHeaders]
    · intro burl
      have hk' : k.data ≠ [] := fun he => by simp [truthyOpt, he] at hk
      simp [CritiqueAPIDesignTool.init, resolveKey, hk, truthyOpt, mkHeaders, hk']
    · intro api_id nm d schema env burl t ht
      cases hb : buildArgsSchema schema with
      | none => simp [CritiqueDynamicAPITool.init, hb] at ht
      | some fs =>
        simp only [CritiqueDynamicAPITool.init, hb] at ht
        injection ht with ht
        subst ht
        simp [resolveKey, hk]
    · intro api_id nm d schema burl t ht
      cases hb : buildArgsSchema schema with
      | none => simp [CritiqueDynamicAPITool.init, hb] at ht
      | some fs =>
        simp only [CritiqueDynamicAPITool.init, hb] at ht
        injection ht with ht
        subst ht
        simp [resolveKey, hk, truthyOpt]

/-- Witness for C1 as amended: with no key at all, the search tool fails
while the dynamic tool succeeds with an empty auth header; with an explicit
key `"k"`, the search tool stores it in the header. -/
theorem c1_key_resolution_witness :
    CritiqueSearchTool.init none none defaultBaseUrl = .error (.config keyErrorMsg) ∧
    (∃ t, CritiqueDynamicAPITool.init "api_1" "n" "d" [] none none defaultBaseUrl =
            .ok t ∧ t.api_key = none ∧ t.headers = mkHeaders none) ∧
    truthyOpt (some "k") = true ∧
    CritiqueSearchTool.init (some "k") none defaultBaseUrl =
      .ok ⟨"k", defaultBaseUrl, mkHeaders (some "k")⟩ :=
  ⟨c1_key_resolution.1 defaultBaseUrl,
   c1_key_resolution.2.2.1 "api_1" "n" "d" defaultBaseUrl [] (by intro p hp; simp at hp),
   rfl,
   (c1_key_resolution.2.2.2 "k" rfl).1 none defaultBaseUrl⟩

/-- C2: a `CritiqueDynamicAPITool` built from a field-spec mapping exposes
exactly the declared field names as required inputs; invoking it with a
mapping missing any declared field fails with a ValidationError and sends
no request; invoking it with all declared fields present and
type-conformant sends exactly that validated field mapping as the JSON body
of one POST to `{base_url}/v1/user-defined-service/{api_id}`, and on a
status-200 response returns the parsed JSON body. -/
theorem c2_dynamic_contract (api_id nm d : String) (schema : List (String × RawFieldSpec))
    (key env : Option String) (burl : String) (t : CritiqueDynamicAPITool)
    (hinit : CritiqueDynamicAPITool.init api_id nm d schema key env burl = .ok t)
    (input : List (String × Json)) (http : Http) :
    t.args_schema.map Prod.fst = schema.map Prod.fst ∧
    (∀ k, k ∈ schema.map Prod.fst → lookupField input k = none →
       t.invoke input http =
         (.error (.validation "input does not conform to args_schema"), [])) ∧
    (List.Forall₂ (fun (p : String × Json) (q : String × CompiledField) =>
         p.1 = q.1 ∧ conformsTo p.2 q.2.ftype = true) input t.args_schema →
     (schema.map Prod.fst).Nodup →
     (t.invoke input http).2 =
       [⟨"POST", burl ++ "/v1/user-defined-service/" ++ api_id, t.headers,
         some (.obj input)⟩] ∧
     ((http ⟨"POST", burl ++ "/v1/user-defined-service/" ++ api_id, t.headers,
         some (.obj input)⟩).status_code = 200 →
       (t.invoke input http).1 =
         .ok (http ⟨"POST", burl ++ "/v1/user-defined-service/" ++ api_id, t.headers,
           some (.obj input)⟩).jsonBody)) := by
  cases hb : buildArgsSchema schema with
  | none => simp [CritiqueDynamicAPITool.init, hb] at hinit
  | some fs =>
    simp only [CritiqueDynamicAPITool.init, hb] at hinit
    injection hinit with hinit
    subst hinit
    have hkeys : fs.map Prod.fst = schema.map Prod.fst := buildArgsSchema_keys schema fs hb
    refine ⟨hkeys, ?_, ?_⟩
    · intro k hk hl
      have hmem : k ∈ fs.map Prod.fst := hkeys ▸ hk
      simp [CritiqueDynamicAPITool.invoke, CritiqueDynamicAPITool.validateArgs,
        validateFields_missing fs input k hmem hl]
    · intro hfa hnd
      have hvf : validateFields fs input = some input :=
        validateFields_exact fs input hfa (hkeys ▸ hnd)
      constructor
      · simp only [CritiqueDynamicAPITool.invoke, CritiqueDynamicAPITool.validateArgs, hvf]
        split <;> rfl
      · intro h200
        simp [CritiqueDynamicAPITool.invoke, CritiqueDynamicAPITool.validateArgs, hvf, h200]

/-- Witness for C2: a two-field schema (`a : str`, `b : list[int]`); a
conforming input is POSTed verbatim and the parsed body comes back; the
input missing `b` is rejected with no request. -/
theorem c2_dynamic_contract_witness :
    CritiqueDynamicAPITool.init "a1" "n" "d"
        [("a", ⟨RawType.supported FieldType.str, some "x"⟩),
         ("b", ⟨RawType.supported (FieldType.listOf FieldType.int), none⟩)]
        (some "k") none defaultBaseUrl =
      .ok ⟨"a1", "n", "d", some "k", defaultBaseUrl, mkHeaders (some "k"),
           [("a", ⟨FieldType.str, "x"⟩), ("b", ⟨FieldType.listOf FieldType.int, ""⟩)]⟩ ∧
    (CritiqueDynamicAPITool.invoke
        ⟨"a1", "n", "d", some "k", defaultBaseUrl, mkHeaders (some "k"),
         [("a", ⟨FieldType.str, "x"⟩), ("b", ⟨FieldType.listOf FieldType.int, ""⟩)]⟩
        [("a", Json.str "v"), ("b", Json.arr [Json.num 3])]
        (fun _ => ⟨200, "", [], Json.str "pong"⟩)).2 =
      [⟨"POST", defaultBaseUrl ++ "/v1/user-defined-service/" ++ "a1",
        mkHeaders (some "k"),
        some (.obj [("a", Json.str "v"), ("b", Json.arr [Json.num 3])])⟩] ∧
    (CritiqueDynamicAPITool.invoke
        ⟨"a1", "n", "d", some "k", defaultBaseUrl, mkHeaders (some "k"),
         [("a", ⟨FieldType.str, "x"⟩), ("b", ⟨FieldType.listOf FieldType.int, ""⟩)]⟩
        [("a", Json.str "v"), ("b", Json.arr [Json.num 3])]
        (fun _ => ⟨200, "", [], Json.str "pong"⟩)).1 = .ok (Json.str "pong") ∧
    CritiqueDynamicAPITool.invoke
        ⟨"a1", "n", "d", some "k", defaultBaseUrl, mkHeaders (some "k"),
         [("a", ⟨FieldType.str, "x"⟩), ("b", ⟨FieldType.listOf FieldType.int, ""⟩)]⟩
        [("a", Json.str "v")] (fun _ => ⟨200, "", [], Json.str "pong"⟩) =
      (.error (.validation "input does not conform to args_schema"), []) := by
  have hc := c2_dynamic_contract "a1" "n" "d"
    [("a", ⟨RawType.supported FieldType.str, some "x"⟩),
     ("b", ⟨RawType.supported (FieldType.listOf FieldType.int), none⟩)]
    (some "k") none defaultBaseUrl
    ⟨"a1", "n", "d", some "k", defaultBaseUrl, mkHeaders (some "k"),
     [("a", ⟨FieldType.str, "x"⟩), ("b", ⟨FieldType.listOf FieldType.int, ""⟩)]⟩
    rfl [("a", Json.str "v"), ("b", Json.arr [Json.num 3])]
    (fun _ => ⟨200, "", [], Json.str "pong"⟩)
  have hm := c2_dynamic_contract "a1" "n" "d"
    [("a", ⟨RawType.supported FieldType.str, some "x"⟩),
     ("b", ⟨RawType.supported (FieldType.listOf FieldType.int), none⟩)]
    (some "k") none defaultBaseUrl
    ⟨"a1", "n", "d", some "k", defaultBaseUrl, mkHeaders (some "k"),
     [("a", ⟨FieldType.str, "x"⟩), ("b", ⟨FieldType.listOf FieldType.int, ""⟩)]⟩
    rfl [("a", Json.str "v")] (fun _ => ⟨200, "", [], Json.str "pong"⟩)
  have hfa : List.Forall₂ (fun (p : String × Json) (q : String × CompiledField) =>
      p.1 = q.1 ∧ conformsTo p.2 q.2.ftype = true)
      [("a", Json.str "v"), ("b", Json.arr [Json.num 3])]
      [("a", ⟨FieldType.str, "x"⟩), ("b", ⟨FieldType.listOf FieldType.int, ""⟩)] := by
    refine List.Forall₂.cons ⟨rfl, rfl⟩ (List.Forall₂.cons ⟨rfl, rfl⟩ List.Forall₂.nil)
  have hnd : ((([("a", (⟨RawType.supported FieldType.str, some "x"⟩ : RawFieldSpec)),
      ("b", ⟨RawType.supported (FieldType.listOf FieldType.int), none⟩)]) :
      List (String × RawFieldSpec)).map Prod.fst).Nodup := by decide
  exact ⟨rfl, (hc.2.2 hfa hnd).1, (hc.2.2 hfa hnd).2 rfl,
    hm.2.1 "b" (by decide) rfl⟩

/-- Helper: the embedded payload string is truthy (non-empty). -/
theorem truthy_dataUrl (s : String) :
    truthyOpt (some ("data:image/jpeg;base64," ++ s)) = true := rfl

/-- C7: when search is invoked with a remote-URL image, the adapter first
fetches the image and substitutes an embedded base64 payload — never the
URL — into the `image` field of the body POSTed to `{base_url}/v1/search`;
a non-2xx fetch response fails with a fetch error carrying the status code,
and no search request is sent in that case. -/
theorem c7_image_fetch (t : CritiqueSearchTool) (p img : String)
    (sb : Option (List String)) (ofmt : Option Json) (http : Http)
    (himg : strStartsWith img "http" = true) (hne : truthyOpt (some img) = true) :
    (¬(200 ≤ (http (imageGetRequest img)).status_code ∧
        (http (imageGetRequest img)).status_code < 300) →
       t.run p (some img) sb ofmt http =
         (.error (.fetch ("Failed to fetch image. Status code: " ++
            toString (http (imageGetRequest img)).status_code)),
          [imageGetRequest img])) ∧
    ((http (imageGetRequest img)).status_code = 200 →
       (t.run p (some img) sb ofmt http).2 =
         [imageGetRequest img,
          ⟨"POST", t.base_url ++ "/v1/search", t.headers,
           some (.obj [("prompt", .str p),
                       ("source_blacklist", .arr ((sb.getD []).map Json.str)),
                       ("output_format", ofmt.getD (.obj [])),
                       ("image", .str ("data:image/jpeg;base64," ++
                          String.mk (b64encodeBytes
                            (http (imageGetRequest img)).content)))])⟩] ∧
       strStartsWith ("data:image/jpeg;base64," ++
          String.mk (b64encodeBytes (http (imageGetRequest img)).content)) "http" = false) := by
  constructor
  · intro h
    have hne200 : (http (imageGetRequest img)).status_code ≠ 200 := by
      intro he
      exact h (by rw [he]; exact ⟨le_refl _, by norm_num⟩)
    simp [CritiqueSearchTool.run, CritiqueSearchTool.imageToBase64, himg, hne, hne200]
  · intro h200
    refine ⟨?_, dataUrlNotHttp _⟩
    simp only [CritiqueSearchTool.run, CritiqueSearchTool.imageToBase64, himg, hne,
      h200, truthy_dataUrl, and_self, if_true]
    split <;> rfl

/-- Witness for C7: fetching `https://x/img.jpg` from a host answering 200
with bytes `[1, 2, 3]` makes the search POST carry the inlined payload
`data:image/jpeg;base64,AQID` instead of the URL; the same URL answered
with 404 yields a fetch error and no search request. -/
theorem c7_image_fetch_witness :
    strStartsWith "https://x/img.jpg" "http" = true ∧
    truthyOpt (some "https://x/img.jpg") = true ∧
    (CritiqueSearchTool.run ⟨"k", defaultBaseUrl, mkHeaders (some "k")⟩ "x"
        (some "https://x/img.jpg") none none
        (fun r => if r.method = "GET" then ⟨200, "", [1, 2, 3], Json.null⟩
                  else ⟨200, "ok", [], Json.obj []⟩)).2 =
      [imageGetRequest "https://x/img.jpg",
       ⟨"POST", defaultBaseUrl ++ "/v1/search", mkHeaders (some "k"),
        some (.obj [("prompt", .str "x"),
                    ("source_blacklist", .arr []),
                    ("output_format", .obj []),
                    ("image", .str "data:image/jpeg;base64,AQID")])⟩] ∧
    ¬(200 ≤ 404 ∧ 404 < 300) ∧
    CritiqueSearchTool.run ⟨"k", defaultBaseUrl, mkHeaders (some "k")⟩ "x"
        (some "https://x/img.jpg") none none (fun _ => ⟨404, "nf", [], Json.null⟩) =
      (.error (.fetch "Failed to fetch image. Status code: 404"),
       [imageGetRequest "https://x/img.jpg"]) := by
  refine ⟨rfl, rfl, ?_, by decide, ?_⟩
  · exact ((c7_image_fetch ⟨"k", defaultBaseUrl, mkHeaders (some "k")⟩ "x"
      "https://x/img.jpg" none none
      (fun r => if r.method = "GET" then ⟨200, "", [1, 2, 3], Json.null⟩
                else ⟨200, "ok", [], Json.obj []⟩) rfl rfl).2 rfl).1
  · exact (c7_image_fetch ⟨"k", defaultBaseUrl, mkHeaders (some "k")⟩ "x"
      "https://x/img.jpg" none none (fun _ => ⟨404, "nf", [], Json.null⟩) rfl rfl).1
      (by decide)

end Critique
